import Mathlib

/-!
Verification of the local logic of `deep_research_mcp.py`: the report
assembler `create_research_summary`, the per-poll message forwarder
`fetch_and_print_new_agent_response`, the polling loop and the surrounding
handler `retrieve_deep_research_report`.  External SDK calls (the Azure
agents client, the MCP context) are abstracted as data: the environment
scripts what each call returns, and progress notifications sent through
the context are collected into an event trace.
-/

namespace DeepResearch

/-- A single quote character, used inside the instruction template. -/
def squote : String := String.singleton (Char.ofNat 39)

/-- `ann.url_citation`: a URL plus an optional title (Python `None` ↦ `none`). -/
structure UrlCitation where
  url : String
  title : Option String
deriving DecidableEq

/-- One entry of `message.url_citation_annotations`. -/
structure Annotation where
  url_citation : UrlCitation
deriving DecidableEq

/-- One entry of `message.text_messages`; `value` is `t.text.value`. -/
structure TextMessage where
  value : String
deriving DecidableEq

/-- The fields of an SDK `ThreadMessage` that the local code reads. -/
structure ThreadMessage where
  id : String
  text_messages : List TextMessage
  url_citation_annotations : List Annotation
deriving DecidableEq

/-- Python truthiness of an optional string: `None` and `""` are falsy. -/
def pyTruthy : Option String → Bool
  | none => false
  | some s => s ≠ ""

/-- Python `title or url` where `title` may be `None` or empty. -/
def titleOr (title : Option String) (url : String) : String :=
  match title with
  | none => url
  | some t => if t = "" then url else t

/-- Python `str(x)` of an optional string: `None` renders as `"None"`
(the behaviour of the f-string in `fetch_and_print_new_agent_response`). -/
def pyStr : Option String → String
  | none => "None"
  | some s => s

/-- Python `s.strip()`: drop whitespace from both ends. -/
def pyStrip (s : String) : String :=
  String.mk (((s.data.dropWhile Char.isWhitespace).reverse.dropWhile
    Char.isWhitespace).reverse)

/-- The `for ann in message.url_citation_annotations` loop of
`create_research_summary`: appends one `- [title](url)` line per URL not in
`seen_urls`, threading the accumulated report string and the seen set. -/
def refsFold : List Annotation → String → List String → String × List String
  | [], acc, seen => (acc, seen)
  | a :: rest, acc, seen =>
    let url := a.url_citation.url
    let title := titleOr a.url_citation.title url
    if url ∈ seen then
      refsFold rest acc seen
    else
      refsFold rest (acc ++ "- [" ++ title ++ "](" ++ url ++ ")\n") (url :: seen)

/-- `create_research_summary(message, filepath)`: `None` input yields `None`
(the function logs and returns); otherwise the text segments are trimmed and
joined by blank lines, and if citation annotations are present a
`## References` section with first-seen-deduplicated URLs is appended.
The `filepath` parameter is never used. -/
def create_research_summary (message : Option ThreadMessage) (filepath : String) :
    Option String :=
  match message with
  | none => none
  | some m =>
    let report_content :=
      String.intercalate "\n\n" (m.text_messages.map (fun t => pyStrip t.value))
    if m.url_citation_annotations.isEmpty then
      some report_content
    else
      some (refsFold m.url_citation_annotations
        (report_content ++ "\n\n## References\n") []).1

/-- A progress notification sent to the MCP context (`ctx.info` / `ctx.error`),
or the non-blocking sleep of the polling loop, or the user message posted to
the thread. -/
inductive Event where
  | info (s : String)
  | ctxError (s : String)
  | sleep (n : Nat)
  | messageCreated (content : String)
deriving DecidableEq

/-- `fetch_and_print_new_agent_response`: given the latest agent-role message
(`None` when the thread has none) and the last reported message id, emit the
message text and its citation annotations when the id is new, and return the
id to remember.  Returns the emitted events plus the new `last_message_id`. -/
def fetch_and_print_new_agent_response (response : Option ThreadMessage)
    (last_message_id : Option String) : List Event × Option String :=
  match response with
  | none => ([], last_message_id)
  | some r =>
    if some r.id = last_message_id then
      ([], last_message_id)
    else
      (Event.info ("\nAgent response:" ++
          String.intercalate "\n" (r.text_messages.map (fun t => t.value))) ::
        r.url_citation_annotations.map (fun a =>
          Event.info ("URL Citation: [" ++ pyStr a.url_citation.title ++ "](" ++
            a.url_citation.url ++ ")")),
       some r.id)

/-- What one iteration of the polling loop observes from the service:
the re-fetched run status and the latest agent-role message. -/
structure Poll where
  status : String
  response : Option ThreadMessage
deriving DecidableEq

/-- `run.status in ("queued", "in_progress")`. -/
def statusActive (s : String) : Bool :=
  s = "queued" || s = "in_progress"

/-- The polling loop of `retrieve_deep_research_report`: while the status is
queued or in-progress, sleep 10, re-fetch the run (scripted by `script`),
forward any new agent message, and report the status; on exit emit the
`Run finished` notification.  Returns the trace and, when the loop exits
within the script, the terminal status and last reported message id; `none`
means the script was exhausted while the run was still active (the loop has
not terminated yet). -/
def pollLoop (status : String) (script : List Poll) (lastId : Option String) :
    List Event × Option (String × Option String) :=
  if statusActive status then
    match script with
    | [] => ([], none)
    | p :: rest =>
      let fr := fetch_and_print_new_agent_response p.response lastId
      let r := pollLoop p.status rest fr.2
      (Event.sleep 10 :: (fr.1 ++ (Event.info ("Run status: " ++ p.status) :: r.1)),
       r.2)
  else
    ([Event.info ("Run finished with status: " ++ status)], some (status, lastId))

/-- The scripted behaviour of the external service for one handler invocation:
the status returned by `runs.create`, the successive poll results, the final
`get_last_message_by_role` result, the run's `last_error`, and whether
`delete_agent` succeeds. -/
structure HandlerEnv where
  runStatus0 : String
  polls : List Poll
  finalMessage : Option ThreadMessage
  lastError : String
  deleteOk : Bool
deriving DecidableEq

/-- The instruction template of the handler, formatted: embeds
`report_type`, `research_topic` and `language`. -/
def report_instructions_template (report_type research_topic language : String) :
    String :=
  "\n        Provide a " ++ report_type ++ " report on the topic: " ++ squote ++
    research_topic ++ squote ++ ".\n        Use the language " ++ language ++
    " for the report.\n        Do not ask the user for any additional information, just provide the report.\n        "

/-- The composed instruction message: the formatted template, plus the
`# Other Instructions` block when `other_instructions` is truthy
(Python `if not other_instructions`: `None` and `""` take the plain branch). -/
def report_instructions (report_type research_topic language : String)
    (other_instructions : Option String) : String :=
  if pyTruthy other_instructions then
    report_instructions_template report_type research_topic language ++
      "# Other Instructions\n\n" ++ pyStr other_instructions ++ "\n\n"
  else
    report_instructions_template report_type research_topic language

/-- The result of a handler invocation: `none` when the polling loop never
terminates within the script; otherwise `Except.error` when the Python code
raises and `Except.ok` with the returned report string. -/
abbrev HandlerResult := Option (Except String String)

/-- `retrieve_deep_research_report`: the local control flow after the agent,
thread and message are created, with external calls scripted by `env`.
After the loop: report a failed run's last error, fetch the final agent
message, assemble the report when a message exists (otherwise the Python
local `report_content` stays unbound), delete the agent (an SDK failure
there propagates), and return `report_content or "No report content
generated."` — which raises `UnboundLocalError` when no message existed. -/
def retrieve_deep_research_report (research_topic report_type language : String)
    (other_instructions : Option String) (env : HandlerEnv) :
    List Event × HandlerResult :=
  let instructions := report_instructions report_type research_topic language
    other_instructions
  let pre : List Event :=
    [Event.info "Agent created.", Event.info "Thread created.",
     Event.messageCreated instructions,
     Event.info "Starting the research process... this may take a few minutes. Be patient!"]
  let lp := pollLoop env.runStatus0 env.polls none
  match lp.2 with
  | none => (pre ++ lp.1, none)
  | some (st, _) =>
    let evFail :=
      if st = "failed" then [Event.ctxError ("Run failed: " ++ env.lastError)]
      else []
    let report_content : Option (Option String) :=
      match env.finalMessage with
      | some fm => some (create_research_summary (some fm) "research_summary.md")
      | none => none
    let evDelete := if env.deleteOk then [Event.info "Deleted agent"] else []
    let result : Except String String :=
      if env.deleteOk then
        match report_content with
        | some rc =>
          Except.ok
            (match rc with
             | none => "No report content generated."
             | some s => if s = "" then "No report content generated." else s)
        | none =>
          Except.error
            "UnboundLocalError: local variable report_content referenced before assignment"
      else Except.error "delete_agent failed"
    (pre ++ lp.1 ++ evFail ++ evDelete, some result)

/-- Rendering of one reference entry `(title, url)` as the markdown line the
source appends: `- [title](url)` plus a newline. -/
def renderRef (p : String × String) : String :=
  "- [" ++ p.1 ++ "](" ++ p.2 ++ ")\n"

/-- Concatenation of a list of strings, for relating the reference lines to
the single string the source accumulates. -/
def joinAll : List String → String
  | [] => ""
  | s :: rest => s ++ joinAll rest

/-- The reference entries `(title, url)` the citation loop emits, as a list:
one entry per URL not yet seen, with the Python `title or url` fallback. -/
def firstSeenEntries : List Annotation → List String → List (String × String)
  | [], _ => []
  | a :: rest, seen =>
    if a.url_citation.url ∈ seen then
      firstSeenEntries rest seen
    else
      (titleOr a.url_citation.title a.url_citation.url, a.url_citation.url) ::
        firstSeenEntries rest (a.url_citation.url :: seen)

/-- Modelled from the spec sentence "the reference list contains each URL
exactly once … preserving first-seen order": keep the first occurrence of
each element and drop every later duplicate. -/
def firstSeenUrls : List String → List String
  | [] => []
  | u :: us => u :: firstSeenUrls (us.filter (fun v => v ≠ u))
termination_by l => l.length
decreasing_by
  simp only [List.length_cons]
  exact Nat.lt_succ_of_le (List.length_filter_le _ _)

theorem firstSeenUrls_cons (u : String) (us : List String) :
    firstSeenUrls (u :: us) = u :: firstSeenUrls (us.filter (fun v => v ≠ u)) := by
  rw [firstSeenUrls]

theorem mem_firstSeenUrls (l : List String) (u : String) :
    u ∈ firstSeenUrls l ↔ u ∈ l := by
  induction l using firstSeenUrls.induct with
  | case1 => simp [firstSeenUrls]
  | case2 v us ih =>
    rw [firstSeenUrls_cons]
    simp only [List.mem_cons, ih, List.mem_filter, decide_eq_true_eq]
    constructor
    · rintro (h | ⟨h, _⟩)
      · exact Or.inl h
      · exact Or.inr h
    · rintro (h | h)
      · exact Or.inl h
      · by_cases hv : u = v
        · exact Or.inl hv
        · exact Or.inr ⟨h, hv⟩

theorem nodup_firstSeenUrls (l : List String) : (firstSeenUrls l).Nodup := by
  induction l using firstSeenUrls.induct with
  | case1 => simp [firstSeenUrls]
  | case2 v us ih =>
    rw [firstSeenUrls_cons]
    refine List.nodup_cons.2 ⟨?_, ih⟩
    rw [mem_firstSeenUrls]
    simp

/-- The accumulated reference string of the source loop is the accumulator
followed by the rendered first-seen entries. -/
theorem refsFold_fst (anns : List Annotation) (acc : String) (seen : List String) :
    (refsFold anns acc seen).1 =
      acc ++ joinAll ((firstSeenEntries anns seen).map renderRef) := by
  induction anns generalizing acc seen with
  | nil => simp [refsFold, firstSeenEntries, joinAll]
  | cons a rest ih =>
    by_cases h : a.url_citation.url ∈ seen
    · rw [refsFold, firstSeenEntries]
      simp only [h, if_pos]
      exact ih acc seen
    · rw [refsFold, firstSeenEntries]
      simp only [h, if_neg, not_false_iff]
      rw [ih]
      simp [renderRef, joinAll, String.append_assoc]

/-- Membership in the emitted URLs: a URL appears iff it occurs among the
annotations and was not already seen. -/
theorem mem_firstSeenEntries_snd (anns : List Annotation) (seen : List String)
    (u : String) :
    u ∈ (firstSeenEntries anns seen).map Prod.snd ↔
      u ∈ anns.map (fun a => a.url_citation.url) ∧ u ∉ seen := by
  induction anns generalizing seen with
  | nil => simp [firstSeenEntries]
  | cons a rest ih =>
    by_cases h : a.url_citation.url ∈ seen
    · rw [firstSeenEntries]
      simp only [h, if_pos, ih, List.map_cons, List.mem_cons]
      constructor
      · rintro ⟨hm, hs⟩
        exact ⟨Or.inr hm, hs⟩
      · rintro ⟨hm | hm, hs⟩
        · exact absurd (hm ▸ h) hs
        · exact ⟨hm, hs⟩
    · rw [firstSeenEntries]
      simp only [h, if_neg, not_false_iff, List.map_cons, List.mem_cons, ih,
        List.mem_cons, not_or]
      constructor
      · rintro (h1 | ⟨h1, h2, h3⟩)
        · exact ⟨Or.inl h1, h1 ▸ h⟩
        · exact ⟨Or.inr h1, h3⟩
      · rintro ⟨h1 | h1, h2⟩
        · exact Or.inl h1
        · by_cases hu : u = a.url_citation.url
          · exact Or.inl hu
          · exact Or.inr ⟨h1, hu, h2⟩

/-- The emitted URLs, in order, are the first-seen deduplication of the
annotation URLs not already seen. -/
theorem firstSeenEntries_snd_eq (anns : List Annotation) (seen : List String) :
    (firstSeenEntries anns seen).map Prod.snd =
      firstSeenUrls ((anns.map (fun a => a.url_citation.url)).filter
        (fun v => v ∉ seen)) := by
  induction anns generalizing seen with
  | nil => simp [firstSeenEntries, firstSeenUrls]
  | cons a rest ih =>
    by_cases h : a.url_citation.url ∈ seen
    · rw [firstSeenEntries]
      simp only [h, if_pos]
      rw [ih]
      congr 1
      simp [List.filter_cons, h]
    · rw [firstSeenEntries]
      simp only [h, if_neg, not_false_iff, List.map_cons]
      rw [ih, List.filter_cons, if_pos (by simp [h]), firstSeenUrls_cons]
      congr 1
      rw [List.filter_filter]
      congr 1
      apply List.filter_congr
      intro v _
      simp only [List.mem_cons, not_or, decide_not]
      by_cases hv : v = a.url_citation.url
      · simp [hv]
      · by_cases hs : v ∈ seen
        · simp [hv, hs]
        · simp [hv, hs]

/-- Every emitted entry takes its title from the first annotation carrying
its URL, with the `title or url` fallback. -/
theorem firstSeenEntries_title (anns : List Annotation) (seen : List String) :
    ∀ p ∈ firstSeenEntries anns seen, ∃ a,
      anns.find? (fun b => b.url_citation.url == p.2) = some a ∧
      p = (titleOr a.url_citation.title a.url_citation.url, a.url_citation.url) := by
  induction anns generalizing seen with
  | nil => simp [firstSeenEntries]
  | cons a rest ih =>
    intro p hp
    by_cases h : a.url_citation.url ∈ seen
    · rw [firstSeenEntries] at hp
      simp only [h, if_pos] at hp
      obtain ⟨b, hb1, hb2⟩ := ih seen p hp
      have hmem : p.2 ∈ (firstSeenEntries rest seen).map Prod.snd :=
        List.mem_map_of_mem Prod.snd hp
      have hnm := (mem_firstSeenEntries_snd rest seen p.2).1 hmem
      have hne : ¬((fun b => b.url_citation.url == p.2) a = true) := by
        simp only [beq_iff_eq]
        intro he
        exact hnm.2 (he ▸ h)
      exact ⟨b, (List.find?_cons_of_neg rest hne).trans hb1, hb2⟩
    · rw [firstSeenEntries] at hp
      simp only [h, if_neg, not_false_iff, List.mem_cons] at hp
      rcases hp with rfl | hp
      · exact ⟨a, List.find?_cons_of_pos rest (by simp), rfl⟩
      · obtain ⟨b, hb1, hb2⟩ := ih (a.url_citation.url :: seen) p hp
        have hmem : p.2 ∈ (firstSeenEntries rest (a.url_citation.url :: seen)).map
            Prod.snd := List.mem_map_of_mem Prod.snd hp
        have hnm := (mem_firstSeenEntries_snd rest (a.url_citation.url :: seen)
          p.2).1 hmem
        have hne : ¬((fun b => b.url_citation.url == p.2) a = true) := by
          simp only [beq_iff_eq]
          intro he
          exact hnm.2 (by simp [he.symm])
        exact ⟨b, (List.find?_cons_of_neg rest hne).trans hb1, hb2⟩

/-- A message with two text segments and three citation annotations, the
first and third sharing a URL with different titles and the second carrying
no title. -/
def dupCitationMessage : ThreadMessage :=
  ⟨"msg-1", [⟨" First paragraph. "⟩, ⟨"Second paragraph."⟩],
   [⟨⟨"https://a.example", some "Alpha"⟩⟩, ⟨⟨"https://b.example", none⟩⟩,
    ⟨⟨"https://a.example", some "Duplicate"⟩⟩]⟩

/-- C3: for every message whose citation annotations contain duplicate URLs,
the `## References` list contains each distinct URL exactly once, in
first-seen order, with the title of the first occurrence of that URL, the
URL itself standing in when that occurrence supplies no title. -/
theorem create_research_summary_refs_dedup (m : ThreadMessage) (fp : String)
    (hanns : m.url_citation_annotations ≠ []) :
    create_research_summary (some m) fp =
      some (String.intercalate "\n\n" (m.text_messages.map (fun t => pyStrip t.value)) ++
        "\n\n## References\n" ++
        joinAll ((firstSeenEntries m.url_citation_annotations []).map renderRef)) ∧
    (firstSeenEntries m.url_citation_annotations []).map Prod.snd =
      firstSeenUrls (m.url_citation_annotations.map (fun a => a.url_citation.url)) ∧
    ((firstSeenEntries m.url_citation_annotations []).map Prod.snd).Nodup ∧
    (∀ u, u ∈ (firstSeenEntries m.url_citation_annotations []).map Prod.snd ↔
      u ∈ m.url_citation_annotations.map (fun a => a.url_citation.url)) ∧
    (∀ p ∈ firstSeenEntries m.url_citation_annotations [], ∃ a,
      m.url_citation_annotations.find? (fun b => b.url_citation.url == p.2) = some a ∧
      p = (titleOr a.url_citation.title a.url_citation.url, a.url_citation.url)) := by
  have hempty : m.url_citation_annotations.isEmpty = false := by
    cases hm : m.url_citation_annotations with
    | nil => exact absurd hm hanns
    | cons a l => rfl
  have hsnd : (firstSeenEntries m.url_citation_annotations []).map Prod.snd =
      firstSeenUrls (m.url_citation_annotations.map (fun a => a.url_citation.url)) := by
    rw [firstSeenEntries_snd_eq]
    congr 1
    simp
  refine ⟨?_, hsnd, ?_, ?_, firstSeenEntries_title _ _⟩
  · simp only [create_research_summary, hempty, Bool.false_eq_true, if_false]
    rw [refsFold_fst]
  · rw [hsnd]
    exact nodup_firstSeenUrls _
  · intro u
    rw [mem_firstSeenEntries_snd]
    simp

theorem create_research_summary_refs_dedup_witness :
    (dupCitationMessage.url_citation_annotations ≠ []) ∧
    (create_research_summary (some dupCitationMessage) "research_summary.md" =
      some (String.intercalate "\n\n"
          (dupCitationMessage.text_messages.map (fun t => pyStrip t.value)) ++
        "\n\n## References\n" ++
        joinAll ((firstSeenEntries dupCitationMessage.url_citation_annotations []).map
          renderRef)) ∧
    (firstSeenEntries dupCitationMessage.url_citation_annotations []).map Prod.snd =
      firstSeenUrls (dupCitationMessage.url_citation_annotations.map
        (fun a => a.url_citation.url)) ∧
    ((firstSeenEntries dupCitationMessage.url_citation_annotations []).map
      Prod.snd).Nodup ∧
    (∀ u, u ∈ (firstSeenEntries dupCitationMessage.url_citation_annotations []).map
        Prod.snd ↔
      u ∈ dupCitationMessage.url_citation_annotations.map
        (fun a => a.url_citation.url)) ∧
    (∀ p ∈ firstSeenEntries dupCitationMessage.url_citation_annotations [], ∃ a,
      dupCitationMessage.url_citation_annotations.find?
        (fun b => b.url_citation.url == p.2) = some a ∧
      p = (titleOr a.url_citation.title a.url_citation.url, a.url_citation.url))) :=
  ⟨by decide,
   create_research_summary_refs_dedup dupCitationMessage "research_summary.md"
     (by decide)⟩

/-- C4: the report body — the part before any references section — is the
text segments, each trimmed, joined by one blank line, in original order. -/
theorem create_research_summary_body (m : ThreadMessage) (fp : String) :
    create_research_summary (some m) fp =
      some (String.intercalate "\n\n" (m.text_messages.map (fun t => pyStrip t.value)) ++
        (if m.url_citation_annotations.isEmpty then "" else
          "\n\n## References\n" ++
          joinAll ((firstSeenEntries m.url_citation_annotations []).map renderRef))) := by
  by_cases h : m.url_citation_annotations.isEmpty
  · simp [create_research_summary, h]
  · simp only [create_research_summary, Bool.not_eq_true] at h ⊢
    simp only [h, Bool.false_eq_true, if_false]
    rw [refsFold_fst]
    simp [String.append_assoc]

/-- C8: with zero citation annotations no `## References` section is
appended: the result is exactly the joined text-segment body. -/
theorem create_research_summary_no_refs (m : ThreadMessage) (fp : String)
    (h : m.url_citation_annotations = []) :
    create_research_summary (some m) fp =
      some (String.intercalate "\n\n" (m.text_messages.map (fun t => pyStrip t.value))) := by
  simp [create_research_summary, h]

theorem create_research_summary_no_refs_witness :
    ((⟨"m1", [⟨" Hello "⟩, ⟨"World"⟩], []⟩ : ThreadMessage).url_citation_annotations
      = []) ∧
    create_research_summary (some ⟨"m1", [⟨" Hello "⟩, ⟨"World"⟩], []⟩)
        "research_summary.md" =
      some (String.intercalate "\n\n"
        ((⟨"m1", [⟨" Hello "⟩, ⟨"World"⟩], []⟩ : ThreadMessage).text_messages.map
          (fun t => pyStrip t.value))) :=
  ⟨rfl, create_research_summary_no_refs ⟨"m1", [⟨" Hello "⟩, ⟨"World"⟩], []⟩
    "research_summary.md" rfl⟩

/-- C10: the report assembler depends only on the message: the unused
`filepath` argument never changes the result, which is a pure function of
the message (the source writes no file). -/
theorem create_research_summary_filepath_irrelevant (m : Option ThreadMessage)
    (fp1 fp2 : String) :
    create_research_summary m fp1 = create_research_summary m fp2 := rfl

/-- Character-level test that `p` starts the string `s`. -/
def startsWith (p s : String) : Bool :=
  p.data.isPrefixOf s.data

/-- Whether an event is the terminal `Run finished` notification. -/
def isRunFinished (e : Event) : Bool :=
  match e with
  | Event.info s => startsWith "Run finished with status: " s
  | _ => false

/-- Every event the per-poll forwarder emits is an `info` notification. -/
theorem fetch_events_are_info (resp : Option ThreadMessage) (last : Option String) :
    ∀ e ∈ (fetch_and_print_new_agent_response resp last).1, ∃ s, e = Event.info s := by
  cases resp with
  | none => simp [fetch_and_print_new_agent_response]
  | some r =>
    by_cases h : some r.id = last
    · simp [fetch_and_print_new_agent_response, h]
    · simp only [fetch_and_print_new_agent_response, h, if_neg, not_false_iff]
      intro e he
      rcases List.mem_cons.1 he with rfl | he
      · exact ⟨_, rfl⟩
      · rcases List.mem_map.1 he with ⟨a, _, rfl⟩
        exact ⟨_, rfl⟩

/-- C6: a poll whose latest agent message is absent, or whose identifier is
the one last reported, emits nothing and leaves the reported identifier
unchanged; re-polling the same message after a first poll emits nothing
(idempotence), while a genuinely new message is emitted — with a non-empty
emission — exactly once, its identifier then remembered. -/
theorem fetch_and_print_idempotent :
    (∀ last, fetch_and_print_new_agent_response none last = ([], last)) ∧
    (∀ r : ThreadMessage,
      fetch_and_print_new_agent_response (some r) (some r.id) = ([], some r.id)) ∧
    (∀ (r : ThreadMessage) (last : Option String),
      fetch_and_print_new_agent_response (some r)
        (fetch_and_print_new_agent_response (some r) last).2 =
      ([], (fetch_and_print_new_agent_response (some r) last).2)) ∧
    (∀ (r : ThreadMessage) (last : Option String), some r.id ≠ last →
      (fetch_and_print_new_agent_response (some r) last).2 = some r.id ∧
      (fetch_and_print_new_agent_response (some r) last).1 ≠ []) := by
  refine ⟨fun last => rfl, ?_, ?_, ?_⟩
  · intro r
    simp [fetch_and_print_new_agent_response]
  · intro r last
    by_cases h : some r.id = last
    · simp [fetch_and_print_new_agent_response, h]
    · simp [fetch_and_print_new_agent_response, h]
  · intro r last h
    simp [fetch_and_print_new_agent_response, h]

theorem fetch_and_print_idempotent_witness :
    ((some "m1" : Option String) ≠ none) ∧
    ((fetch_and_print_new_agent_response
        (some ⟨"m1", [⟨"hello"⟩], []⟩) none).2 = some "m1" ∧
     (fetch_and_print_new_agent_response
        (some ⟨"m1", [⟨"hello"⟩], []⟩) none).1 ≠ []) :=
  ⟨by decide,
   fetch_and_print_idempotent.2.2.2 ⟨"m1", [⟨"hello"⟩], []⟩ none (by decide)⟩

/-- C5: the polling loop exits exactly when the run status leaves
`{queued, in_progress}`; on the scripted status sequence
queued → in_progress → completed it emits exactly one `Run finished`
notification, sleeping 10 time-units at the head of each iteration; and
every sleep it ever performs is of exactly 10 time-units. -/
theorem pollLoop_terminates_iff :
    (∀ (status : String) (script : List Poll) (lastId : Option String),
      ((pollLoop status script lastId).2.isSome ↔
        ∃ s ∈ status :: script.map Poll.status, statusActive s = false)) ∧
    (pollLoop "queued" [⟨"in_progress", none⟩, ⟨"completed", none⟩] none =
      ([Event.sleep 10, Event.info "Run status: in_progress", Event.sleep 10,
        Event.info "Run status: completed",
        Event.info "Run finished with status: completed"],
       some ("completed", none))) ∧
    (((pollLoop "queued" [⟨"in_progress", none⟩, ⟨"completed", none⟩] none).1.filter
        isRunFinished).length = 1) ∧
    (∀ (status : String) (script : List Poll) (lastId : Option String) (n : Nat),
      Event.sleep n ∈ (pollLoop status script lastId).1 → n = 10) := by
  refine ⟨?_, rfl, ?_, ?_⟩
  · intro status script lastId
    induction script generalizing status lastId with
    | nil =>
      by_cases h : statusActive status
      · rw [pollLoop]
        simp [h]
      · rw [pollLoop]
        simp only [h, Bool.false_eq_true, if_false]
        simp only [Option.isSome_some, List.map_nil, List.mem_singleton, true_iff]
        exact ⟨status, rfl, by simpa using h⟩
    | cons p rest ih =>
      by_cases h : statusActive status
      · rw [pollLoop]
        simp only [h, if_true]
        rw [ih]
        constructor
        · rintro ⟨s, hs, hf⟩
          exact ⟨s, List.mem_cons.2 (Or.inr hs), hf⟩
        · rintro ⟨s, hs, hf⟩
          rcases List.mem_cons.1 hs with rfl | hs
          · exact absurd h (by simp [hf])
          · exact ⟨s, hs, hf⟩
      · rw [pollLoop]
        simp only [h, Bool.false_eq_true, if_false]
        simp only [Option.isSome_some, true_iff]
        exact ⟨status, List.mem_cons.2 (Or.inl rfl), by simpa using h⟩
  · decide
  · intro status script lastId n
    induction script generalizing status lastId with
    | nil =>
      by_cases h : statusActive status
      · rw [pollLoop]
        simp [h]
      · rw [pollLoop]
        simp [h]
    | cons p rest ih =>
      by_cases h : statusActive status
      · rw [pollLoop]
        simp only [h, if_true, List.mem_cons, List.mem_append]
        rintro (he | he | he | he)
        · exact Event.sleep.inj he
        · rcases fetch_events_are_info p.response lastId _ he with ⟨s, hs⟩
          exact absurd hs (by intro hc; cases hc)
        · exact absurd he (by intro hc; cases hc)
        · exact ih p.status _ he
      · rw [pollLoop]
        simp [h]

theorem pollLoop_terminates_iff_witness :
    (Event.sleep 10 ∈
      (pollLoop "queued" [⟨"in_progress", none⟩, ⟨"completed", none⟩] none).1) ∧
    (10 = 10) :=
  ⟨by decide,
   pollLoop_terminates_iff.2.2.2 "queued" [⟨"in_progress", none⟩, ⟨"completed", none⟩]
     none 10 (by decide)⟩

/-- Whether an event is the posting of the user instruction message. -/
def isMessageCreated (e : Event) : Bool :=
  match e with
  | Event.messageCreated _ => true
  | _ => false

/-- The polling loop never posts a message to the thread. -/
theorem pollLoop_no_messageCreated (status : String) (script : List Poll)
    (lastId : Option String) :
    ∀ e ∈ (pollLoop status script lastId).1, isMessageCreated e = false := by
  induction script generalizing status lastId with
  | nil =>
    by_cases h : statusActive status
    · rw [pollLoop]
      simp [h]
    · rw [pollLoop]
      simp [h, isMessageCreated]
  | cons p rest ih =>
    by_cases h : statusActive status
    · rw [pollLoop]
      simp only [h, if_true]
      intro e he
      rcases List.mem_cons.1 he with rfl | he
      · rfl
      rcases List.mem_append.1 he with he | he
      · rcases fetch_events_are_info p.response lastId e he with ⟨s, rfl⟩
        rfl
      rcases List.mem_cons.1 he with rfl | he
      · rfl
      · exact ih p.status _ e he
    · rw [pollLoop]
      simp [h, isMessageCreated]

/-- C9 (amended): every invocation posts exactly one instruction message; it
embeds report_type, topic and language in the fixed template, and when
`other_instructions` is provided non-empty an `# Other Instructions` block
containing it is appended, while a `None` or empty value leaves the message
as the formatted template alone. -/
theorem handler_message_content (research_topic report_type language : String)
    (other_instructions : Option String) (env : HandlerEnv) :
    (retrieve_deep_research_report research_topic report_type language
        other_instructions env).1.filter isMessageCreated =
      [Event.messageCreated (report_instructions report_type research_topic
        language other_instructions)] ∧
    ((other_instructions = none ∨ other_instructions = some "") →
      report_instructions report_type research_topic language other_instructions =
        report_instructions_template report_type research_topic language) ∧
    (∀ s, other_instructions = some s → s ≠ "" →
      report_instructions report_type research_topic language other_instructions =
        report_instructions_template report_type research_topic language ++
          "# Other Instructions\n\n" ++ s ++ "\n\n") := by
  refine ⟨?_, ?_, ?_⟩
  · have hno : (pollLoop env.runStatus0 env.polls none).1.filter isMessageCreated
        = [] :=
      List.filter_eq_nil_iff.2 (fun e he => by
        simp [pollLoop_no_messageCreated env.runStatus0 env.polls none e he])
    rcases hl : (pollLoop env.runStatus0 env.polls none).2 with _ | ⟨st, lid⟩
    · simp [retrieve_deep_research_report, hl, List.filter_append, hno,
        isMessageCreated]
    · by_cases hst : st = "failed" <;> by_cases hdel : env.deleteOk <;>
        simp [retrieve_deep_research_report, hl, List.filter_append, hno,
          isMessageCreated, hst, hdel]
  · intro h
    rcases h with rfl | rfl <;> simp [report_instructions, pyTruthy]
  · intro s hs hne
    subst hs
    simp [report_instructions, pyTruthy, hne, pyStr, String.append_assoc]

theorem handler_message_content_witness :
    ((some "Focus on 2024." : Option String) = some "Focus on 2024.") ∧
    ("Focus on 2024." ≠ "") ∧
    (report_instructions "brief" "t" "en" (some "Focus on 2024.") =
      report_instructions_template "brief" "t" "en" ++
        "# Other Instructions\n\n" ++ "Focus on 2024." ++ "\n\n") :=
  ⟨rfl, by decide,
   (handler_message_content "t" "brief" "en" (some "Focus on 2024.")
     ⟨"completed", [], none, "", true⟩).2.2 "Focus on 2024." rfl (by decide)⟩

set_option maxRecDepth 8192 in
/-- C9 counterexample: with `other_instructions` supplied but empty, the
posted message is the plain template — no `Other Instructions` block is
appended even though the parameter is present. -/
theorem handler_message_empty_other_no_block :
    (some "" : Option String) ≠ none ∧
    report_instructions "brief" "t" "en" (some "") =
      report_instructions_template "brief" "t" "en" ∧
    report_instructions "brief" "t" "en" (some "") ≠
      report_instructions_template "brief" "t" "en" ++
        "# Other Instructions\n\n" ++ "" ++ "\n\n" := by
  refine ⟨by decide, rfl, by decide⟩

/-- C1 (code bug): a run that completes while the thread holds no
agent-authored message makes the handler raise `UnboundLocalError` at the
final `return` — the local `report_content` was never assigned — instead of
returning the fallback string. -/
theorem handler_no_message_unbound_local :
    (retrieve_deep_research_report "t" "brief" "en" none
        ⟨"completed", [], none, "", true⟩).2 =
      some (Except.error
        "UnboundLocalError: local variable report_content referenced before assignment") ∧
    (retrieve_deep_research_report "t" "brief" "en" none
        ⟨"completed", [], none, "", true⟩).2 ≠
      some (Except.ok "No report content generated.") := by
  refine ⟨rfl, ?_⟩
  intro h
  exact Except.noConfusion (Option.some.inj h)

/-- C2: when the run ends `failed` and a last agent message with non-empty
assembled content exists, the handler reports the run's last error as a
progress message and still returns that message's assembled report. -/
theorem handler_failed_returns_partial (research_topic report_type language : String)
    (other_instructions : Option String) (env : HandlerEnv) (lid : Option String)
    (fm : ThreadMessage) (s : String)
    (hloop : (pollLoop env.runStatus0 env.polls none).2 = some ("failed", lid))
    (hfm : env.finalMessage = some fm)
    (hdel : env.deleteOk = true)
    (hsum : create_research_summary (some fm) "research_summary.md" = some s)
    (hne : s ≠ "") :
    (retrieve_deep_research_report research_topic report_type language
        other_instructions env).2 = some (Except.ok s) ∧
    Event.ctxError ("Run failed: " ++ env.lastError) ∈
      (retrieve_deep_research_report research_topic report_type language
        other_instructions env).1 := by
  constructor
  · simp [retrieve_deep_research_report, hloop, hfm, hdel, hsum, hne]
  · simp [retrieve_deep_research_report, hloop, hfm, hdel, List.mem_append]

/-- A run that is already `failed` at creation, with one partial agent
message in the thread. -/
def failedRunEnv : HandlerEnv :=
  ⟨"failed", [], some ⟨"m1", [⟨" Hello "⟩], []⟩, "boom", true⟩

theorem handler_failed_returns_partial_witness :
    ((pollLoop failedRunEnv.runStatus0 failedRunEnv.polls none).2 =
      some ("failed", none)) ∧
    (failedRunEnv.finalMessage = some ⟨"m1", [⟨" Hello "⟩], []⟩) ∧
    (failedRunEnv.deleteOk = true) ∧
    (create_research_summary (some ⟨"m1", [⟨" Hello "⟩], []⟩) "research_summary.md"
      = some "Hello") ∧
    ("Hello" ≠ "") ∧
    ((retrieve_deep_research_report "t" "brief" "en" none failedRunEnv).2 =
      some (Except.ok "Hello") ∧
    Event.ctxError ("Run failed: " ++ failedRunEnv.lastError) ∈
      (retrieve_deep_research_report "t" "brief" "en" none failedRunEnv).1) :=
  ⟨rfl, rfl, rfl, by decide, by decide,
   handler_failed_returns_partial "t" "brief" "en" none failedRunEnv none
     ⟨"m1", [⟨" Hello "⟩], []⟩ "Hello" rfl rfl rfl (by decide) (by decide)⟩

/-- C7 (amended): a failure of the `delete_agent` call is not caught — the
handler raises it instead of returning the report; the `Deleted agent` log
happens only on success. -/
theorem handler_delete_failure_propagates (research_topic report_type language :
      String)
    (other_instructions : Option String) (env : HandlerEnv) (st : String)
    (lid : Option String)
    (hloop : (pollLoop env.runStatus0 env.polls none).2 = some (st, lid))
    (hdel : env.deleteOk = false) :
    (retrieve_deep_research_report research_topic report_type language
        other_instructions env).2 = some (Except.error "delete_agent failed") := by
  simp [retrieve_deep_research_report, hloop, hdel]

/-- A run that completes normally but whose agent-deletion call fails. -/
def deleteFailEnv : HandlerEnv :=
  ⟨"completed", [], some ⟨"m1", [⟨"Hello"⟩], []⟩, "", false⟩

theorem handler_delete_failure_propagates_witness :
    ((pollLoop deleteFailEnv.runStatus0 deleteFailEnv.polls none).2 =
      some ("completed", none)) ∧
    (deleteFailEnv.deleteOk = false) ∧
    ((retrieve_deep_research_report "t" "brief" "en" none deleteFailEnv).2 =
      some (Except.error "delete_agent failed")) :=
  ⟨rfl, rfl,
   handler_delete_failure_propagates "t" "brief" "en" none deleteFailEnv
     "completed" none rfl rfl⟩

/-- C7 counterexample: with a completed run, an assembled report `"Hello"`
available, and a failing deletion call, the handler raises the deletion
error — it neither logs `Deleted agent` nor returns the report string. -/
theorem handler_delete_failure_raises :
    (retrieve_deep_research_report "t" "brief" "en" none deleteFailEnv).2 =
      some (Except.error "delete_agent failed") ∧
    (retrieve_deep_research_report "t" "brief" "en" none deleteFailEnv).2 ≠
      some (Except.ok "Hello") ∧
    Event.info "Deleted agent" ∉
      (retrieve_deep_research_report "t" "brief" "en" none deleteFailEnv).1 := by
  refine ⟨rfl, ?_, by decide⟩
  intro h
  exact Except.noConfusion (Option.some.inj h)

end DeepResearch
